import Mathlib

/-!
Shallow embedding of the NovaHealth feature/rule engine.

The definitions below are translated from the Python sources of the
repository:

* `src/backend/fastapi_server.py` — the symptom risk classifier
  (`analyze_symptom_risks`), lifestyle aggregation
  (`aggregate_lifestyle_data`), the recommendation generator
  (`generate_recommendations`), the BMI-based obesity risk level and the
  overall risk score of the `/predict/health-risk` endpoint
  (`predict_health_risk`), and `ObesityFeatureEngineer.engineer_features`.
* `src/advanced_feature_engineering.py` — the batch variant of
  `ObesityFeatureEngineer.engineer_features` (the BMI, BMR and
  Activity_Score steps coincide with the server copy except for a
  pound-to-kilogram weight heuristic not exercised here).

Python floats are modelled as rationals (`ℚ`), Python ints as `Int` or
`Nat`, and absent dictionary keys / `None` values as `Option`.
-/

namespace NovaHealth

/-! ### String primitives

Python string operations used by the source: `str.lower`, `str.strip`,
and the substring test `a in b`.  Strings are handled through their
character lists.  `Char.toLower` agrees with Python `str.lower` on the
ASCII strings appearing in the source tables.
-/

/-- Lowercase every character, as Python `str.lower` on ASCII input. -/
def lowerL (s : List Char) : List Char := s.map Char.toLower

/-- Whitespace characters removed by Python `str.strip` (ASCII subset). -/
def isWsChar (c : Char) : Bool := c == ' ' || c == '\t' || c == '\n' || c == '\r'

/-- Python `str.strip`: drop whitespace from both ends. -/
def stripL (s : List Char) : List Char :=
  ((s.dropWhile isWsChar).reverse.dropWhile isWsChar).reverse

/-- Test pfxL n h: true when `n` is an initial segment of `h`. -/
def pfxL : List Char → List Char → Bool
  | [], _ => true
  | _ :: _, [] => false
  | a :: as, b :: bs => a == b && pfxL as bs

/-- Test hasSub n h: true when `n` occurs contiguously inside `h`,
Python `n in h` for strings.  The empty needle occurs in every string. -/
def hasSub : List Char → List Char → Bool
  | n, [] => n.isEmpty
  | n, c :: rest => pfxL n (c :: rest) || hasSub n rest

/-- Python `needle in hay` on strings. -/
def hasSubS (needle hay : String) : Bool := hasSub needle.data hay.data

/-- Python `s.lower()` (ASCII). -/
def lowerS (s : String) : String := String.mk (lowerL s.data)

/-! ### Symptom records

A symptom arrives as a JSON dictionary.  `analyze_symptom_risks` reads
the keys `type`, `symptomType`, `symptom_type`, `severity`,
`description` and `notes`; each field is `none` when the key is absent.
-/

structure Symptom where
  /-- dictionary key `type` -/
  typeField : Option String := none
  /-- dictionary key `symptomType` -/
  symptomTypeField : Option String := none
  /-- dictionary key `symptom_type` -/
  symptomTypeSnake : Option String := none
  /-- dictionary key `severity` -/
  severityField : Option Int := none
  /-- dictionary key `description` -/
  descriptionField : Option String := none
  /-- dictionary key `notes` -/
  notesField : Option String := none
  deriving DecidableEq

/-- Python `a or b` for an optional string `a`: `None` and the empty
string are falsy, so the default `b` is used for both. -/
def orStr (a : Option String) (b : String) : String :=
  match a with
  | some s => if s = "" then b else s
  | none => b

/-- The raw type, Python `symptom.get("type") or symptom.get("symptomType")
or symptom.get("symptom_type", "")` — first truthy value wins. -/
def rawType (s : Symptom) : String :=
  orStr s.typeField (orStr s.symptomTypeField (orStr s.symptomTypeSnake ""))

/-- The normalized type, Python `str(symptom_type_raw).lower().strip()`. -/
def normType (s : Symptom) : String := String.mk (stripL (lowerL (rawType s).data))

/-- The severity, Python `int(symptom.get("severity", 0))`. -/
def sevOf (s : Symptom) : Int := s.severityField.getD 0

/-! ### Condition categories

The fixed `symptom_patterns` table of `analyze_symptom_risks`, in
declaration order. -/

inductive Category where
  | cardiovascular
  | respiratory
  | gastrointestinal
  | neurological
  | musculoskeletal
  | endocrineMetabolic
  | mentalHealth
  | gynecological
  | dermatological
  | generalSystemic
  deriving DecidableEq

/-- The display name of each category (the dictionary keys). -/
def categoryName : Category → String
  | .cardiovascular => "Cardiovascular"
  | .respiratory => "Respiratory"
  | .gastrointestinal => "Gastrointestinal"
  | .neurological => "Neurological"
  | .musculoskeletal => "Musculoskeletal"
  | .endocrineMetabolic => "Endocrine/Metabolic"
  | .mentalHealth => "Mental Health"
  | .gynecological => "Gynecological"
  | .dermatological => "Dermatological"
  | .generalSystemic => "General/Systemic"

/-- Position of a category in the declaration order of the table. -/
def catIdx : Category → Nat
  | .cardiovascular => 0
  | .respiratory => 1
  | .gastrointestinal => 2
  | .neurological => 3
  | .musculoskeletal => 4
  | .endocrineMetabolic => 5
  | .mentalHealth => 6
  | .gynecological => 7
  | .dermatological => 8
  | .generalSystemic => 9

/-- The `symptom_patterns` dictionary: categories with their keyword
phrases, in declaration (insertion) order. -/
def conditionTable : List (Category × List String) :=
  [ (.cardiovascular,
      ["chest pain", "shortness of breath", "irregular heartbeat", "palpitations",
       "dizziness", "fainting"]),
    (.respiratory,
      ["cough", "shortness of breath", "wheezing", "chest tightness",
       "difficulty breathing"]),
    (.gastrointestinal,
      ["nausea", "vomiting", "diarrhea", "abdominal pain", "bloating",
       "constipation", "heartburn"]),
    (.neurological,
      ["headache", "migraine", "dizziness", "numbness", "tingling", "confusion",
       "memory loss"]),
    (.musculoskeletal,
      ["joint pain", "muscle pain", "back pain", "stiffness", "swelling"]),
    (.endocrineMetabolic,
      ["fatigue", "weight changes", "excessive thirst", "frequent urination",
       "hot flashes", "cold intolerance"]),
    (.mentalHealth,
      ["anxiety", "depression", "mood swings", "insomnia", "stress",
       "panic attacks"]),
    (.gynecological,
      ["irregular periods", "heavy bleeding", "pelvic pain", "cramps", "spotting"]),
    (.dermatological,
      ["rash", "itching", "skin changes", "hives", "acne"]),
    (.generalSystemic,
      ["fever", "chills", "night sweats", "fatigue", "weakness",
       "loss of appetite"]) ]

/-- Categories in declaration order. -/
def categoryList : List Category := conditionTable.map (·.1)

/-- The matching loop of `analyze_symptom_risks`: the first category (in
table order) holding a phrase with a bidirectional substring match
against the normalized type.  The guard `if symptom_type and ...` makes
the empty normalized type match nothing. -/
def firstMatch (t : String) : Option Category :=
  if t = "" then none
  else (conditionTable.find? fun cp => cp.2.any fun p => hasSubS p t || hasSubS t p).map (·.1)

/-- The matching rule exactly as the specification words it: the first
category holding a phrase `p` with `p` a substring of the type or the
type a substring of `p` — with no provision for the empty type. -/
def firstMatchClaim (t : String) : Option Category :=
  (conditionTable.find? fun cp => cp.2.any fun p => hasSubS p t || hasSubS t p).map (·.1)

/-- Update `condition_scores[condition] += severity` for the matched category. -/
def bumpScore (sc : Category → Int) (oc : Option Category) (v : Int) : Category → Int :=
  match oc with
  | none => sc
  | some c => fun d => if d = c then sc d + v else sc d

/-- One iteration of the symptom loop updating `condition_scores`. -/
def scoreStep (sc : Category → Int) (s : Symptom) : Category → Int :=
  bumpScore sc (firstMatch (normType s)) (sevOf s)

/-- The `condition_scores` dictionary after the symptom loop
(all ten keys start at 0). -/
def conditionScores (l : List Symptom) : Category → Int :=
  l.foldl scoreStep (fun _ => 0)

/-! ### Severity statistics -/

/-- The `total_severity` accumulated over the loop (starts at 0). -/
def totalSeverity (l : List Symptom) : Int := (l.map sevOf).sum

/-- The running `max_severity = max(max_severity, severity)` starting from 0. -/
def maxSeverity (l : List Symptom) : Int := l.foldl (fun m s => max m (sevOf s)) 0

/-- The `avg_severity = total_severity / symptom_count if symptom_count > 0 else 0`. -/
def avgSeverity (l : List Symptom) : ℚ :=
  if l.length = 0 then 0 else (totalSeverity l : ℚ) / (l.length : ℚ)

/-- The test `any("chest pain" in s.get("type", "").lower() for s in symptoms)`
— note: this reads only the raw `type` key, not the normalized
cross-field value, and does not strip. -/
def chestPainRaw (l : List Symptom) : Bool :=
  l.any fun s => hasSubS "chest pain" (lowerS (s.typeField.getD ""))

/-! ### Risk level and urgency -/

def urgencyCritical : String := "Urgent Care - Seek immediate medical attention"
def urgencyHigh : String := "Seek Medical Attention - Schedule appointment within 24-48 hours"
def urgencyModerate : String := "Schedule Checkup - Consult healthcare provider within a week"
def urgencyLow : String := "Monitor - Track symptoms and seek care if they worsen"

/-- The risk level / urgency cascade of `analyze_symptom_risks`. -/
def riskLevelUrgency (l : List Symptom) : String × String :=
  if 5 ≤ l.length ∨ 8 ≤ maxSeverity l ∨ chestPainRaw l = true then
    ("Critical", urgencyCritical)
  else if 3 ≤ l.length ∨ (6 : ℚ) ≤ avgSeverity l then
    ("High", urgencyHigh)
  else if 2 ≤ l.length ∨ (4 : ℚ) ≤ avgSeverity l then
    ("Moderate", urgencyModerate)
  else
    ("Low", urgencyLow)

/-! ### Probable conditions

`sorted(condition_scores.items(), key=lambda x: x[1], reverse=True)` is a
stable descending sort of the (category, score) pairs taken in
dictionary insertion order; the loop then collects up to three names
with a strictly positive score, falling back to a sentinel string. -/

/-- The `condition_scores.items()` list, in insertion order. -/
def scoresPairs (l : List Symptom) : List (Category × Int) :=
  categoryList.map fun c => (c, conditionScores l c)

/-- Stable descending insertion: the new element goes before the first
strictly smaller score, hence after every earlier element with an equal
score — the behaviour of Python `sorted(..., reverse=True)`. -/
def insertD (x : Category × Int) : List (Category × Int) → List (Category × Int)
  | [] => [x]
  | h :: t => if h.2 < x.2 then x :: h :: t else h :: insertD x t

/-- Stable sort by score, descending. -/
def sortD (l : List (Category × Int)) : List (Category × Int) :=
  l.foldl (fun acc x => insertD x acc) []

/-- The collection loop: `if score > 0 and len(probable_conditions) < 3:
append(condition)`; `k` is the number collected so far. -/
def collectTop : List (Category × Int) → Nat → List Category
  | [], _ => []
  | p :: t, k => if 0 < p.2 ∧ k < 3 then p.1 :: collectTop t (k + 1) else collectTop t k

/-- The probable conditions as categories (before rendering to names). -/
def probableCats (l : List Symptom) : List Category :=
  collectTop (sortD (scoresPairs l)) 0

def generalSentinel : String := "General symptoms - requires medical evaluation"

/-- The `probable_conditions` list: the collected names, or the sentinel
when the collection is empty. -/
def probableConditions (l : List Symptom) : List String :=
  if probableCats l = [] then [generalSentinel]
  else (probableCats l).map categoryName

/-! ### The full symptom analysis -/

/-- An entry of `detected_symptoms`. -/
structure DetectedSymptom where
  typeOut : String
  severityOut : Int
  descriptionOut : String
  deriving DecidableEq

/-- The per-symptom normalized record appended by the loop:
`symptom_type_raw if symptom_type_raw else "Unknown"`, the coerced
severity, and `symptom.get("description") or symptom.get("notes", "")`. -/
def detectedOf (s : Symptom) : DetectedSymptom :=
  { typeOut := if rawType s = "" then "Unknown" else rawType s,
    severityOut := sevOf s,
    descriptionOut := orStr s.descriptionField (orStr s.notesField "") }

/-- The `SymptomRiskAnalysis` payload. -/
structure SymptomAnalysis where
  probableConditions : List String
  riskLevel : String
  urgency : String
  detectedSymptoms : List DetectedSymptom
  deriving DecidableEq

/-- Function `analyze_symptom_risks`: `None` for the empty list, otherwise
the assembled analysis. -/
def analyzeSymptomRisks (l : List Symptom) : Option SymptomAnalysis :=
  match l with
  | [] => none
  | _ :: _ =>
    some { probableConditions := probableConditions l,
           riskLevel := (riskLevelUrgency l).1,
           urgency := (riskLevelUrgency l).2,
           detectedSymptoms := l.map detectedOf }

/-- The endpoint guards the call with `if request.lifestyleData.symptoms:`
before invoking `analyze_symptom_risks`. -/
def endpointSymptomAnalysis (l : List Symptom) : Option SymptomAnalysis :=
  match l with
  | [] => none
  | _ :: _ => analyzeSymptomRisks l

/-! ### Lifestyle aggregation

`aggregate_lifestyle_data` turns the request payload into the flat
feature mapping consumed by the recommendation generator and the overall
risk score. -/

/-- A mood log entry: keys `intensity` and `factors`. -/
structure MoodLog where
  intensity : Option ℚ := none
  factors : List String := []
  deriving DecidableEq

/-- The `DailyLifestyleData` request body.  Only the length of
`hydrationLogs` is ever read, so the list is carried as its length. -/
structure DailyLifestyleData where
  totalWaterMl : Int
  hydrationLogs : Nat
  moodLogs : List MoodLog := []
  symptoms : List Symptom := []
  exerciseDuration : Option Int := some 0
  exerciseIntensity : Option Int := some 5
  heartRate : Option Int := none
  sleepHours : Option ℚ := none
  caloriesConsumed : Option Int := none
  deriving DecidableEq

/-- Python `x or d` for an optional integer: `None` and `0` are falsy. -/
def pyOrInt (o : Option Int) (d : Int) : Int :=
  match o with
  | none => d
  | some v => if v = 0 then d else v

/-- Python `x or d` for an optional float: `None` and `0.0` are falsy. -/
def pyOrQ (o : Option ℚ) (d : ℚ) : ℚ :=
  match o with
  | none => d
  | some v => if v = 0 then d else v

/-- Python `max(severities)` on a non-empty list (the empty case is guarded
in the source and never reached). -/
def pyMaxInt : List Int → Int
  | [] => 0
  | h :: t => t.foldl max h

/-- The feature mapping produced by `aggregate_lifestyle_data`.  Every
key the function writes is present here; `moodVariabilitySq` carries the
square of `np.std(moods)` (the source stores its square root; no claim
reads this field). -/
structure LifestyleFeatures where
  dailyWaterMl : Int
  hydrationFrequency : Nat
  avgWaterPerLog : ℚ
  avgMoodIntensity : ℚ
  moodVariabilitySq : ℚ
  stressFactorsCount : Nat
  symptomCount : Nat
  avgSymptomSeverity : ℚ
  maxSymptomSeverity : Int
  exerciseDuration : Int
  exerciseIntensity : Int
  heartRate : Int
  sleepHours : ℚ
  caloriesConsumed : Int
  deriving DecidableEq

/-- Function `aggregate_lifestyle_data`. -/
def aggregateLifestyleData (d : DailyLifestyleData) : LifestyleFeatures :=
  let moodTriple : ℚ × ℚ × Nat :=
    match d.moodLogs with
    | [] => (5, 0, 0)
    | _ :: _ =>
      let moods := d.moodLogs.map fun m => m.intensity.getD 5
      let avg := moods.sum / (moods.length : ℚ)
      let varSq :=
        if 1 < moods.length then (moods.map fun x => (x - avg) ^ 2).sum / (moods.length : ℚ)
        else 0
      let allFactors := (d.moodLogs.map (·.factors)).flatten
      let stress :=
        (allFactors.filter fun f => f = "work" ∨ f = "stress" ∨ f = "anxiety").length
      (avg, varSq, stress)
  let sympTriple : Nat × ℚ × Int :=
    match d.symptoms with
    | [] => (0, 0, 0)
    | _ :: _ =>
      let severities : List Int := d.symptoms.map fun s => s.severityField.getD 0
      (d.symptoms.length, (severities.sum : ℚ) / (severities.length : ℚ),
       pyMaxInt severities)
  { dailyWaterMl := d.totalWaterMl,
    hydrationFrequency := d.hydrationLogs,
    avgWaterPerLog := (d.totalWaterMl : ℚ) / (max d.hydrationLogs 1 : ℚ),
    avgMoodIntensity := moodTriple.1,
    moodVariabilitySq := moodTriple.2.1,
    stressFactorsCount := moodTriple.2.2,
    symptomCount := sympTriple.1,
    avgSymptomSeverity := sympTriple.2.1,
    maxSymptomSeverity := sympTriple.2.2,
    exerciseDuration := pyOrInt d.exerciseDuration 0,
    exerciseIntensity := pyOrInt d.exerciseIntensity 0,
    heartRate := pyOrInt d.heartRate 0,
    sleepHours := pyOrQ d.sleepHours 7,
    caloriesConsumed := pyOrInt d.caloriesConsumed 2000 }

/-! ### Recommendation generator

`generate_recommendations` appends human-readable strings; only the
identity of each advisory matters to the claims (the source interpolates
numbers into fixed templates), so each advisory is carried as a tag. -/

inductive RecTag where
  | urgentSymptoms
  | checkupSymptoms
  | monitorSymptoms
  | bmiUnderweight
  | bmiObese
  | bmiOverweight
  | lowHydration
  | lowExercise
  | lowMood
  | lowSleep
  deriving DecidableEq

/-- Symptom advisory block (priority 1): at most one entry. -/
def symptomSeg (f : LifestyleFeatures) : List RecTag :=
  if 0 < f.symptomCount then
    [if 5 ≤ f.symptomCount ∨ 8 ≤ f.maxSymptomSeverity then .urgentSymptoms
     else if 3 ≤ f.symptomCount ∨ (6 : ℚ) ≤ f.avgSymptomSeverity then .checkupSymptoms
     else .monitorSymptoms]
  else []

/-- BMI advisory block: `if bmi < 18.5 ... elif bmi >= 30 ... elif bmi >= 25`. -/
def bmiSeg (bmi : ℚ) : List RecTag :=
  if bmi < 18.5 then [.bmiUnderweight]
  else if 30 ≤ bmi then [.bmiObese]
  else if 25 ≤ bmi then [.bmiOverweight]
  else []

def hydrationSeg (f : LifestyleFeatures) : List RecTag :=
  if f.dailyWaterMl < 1500 then [.lowHydration] else []

def exerciseSeg (f : LifestyleFeatures) : List RecTag :=
  if f.exerciseDuration < 30 then [.lowExercise] else []

def moodSeg (f : LifestyleFeatures) : List RecTag :=
  if f.avgMoodIntensity < 4 then [.lowMood] else []

def sleepSeg (f : LifestyleFeatures) : List RecTag :=
  if f.sleepHours < 6 then [.lowSleep] else []

/-- The list built before truncation, in the fixed source order. -/
def buildRecs (bmi : ℚ) (f : LifestyleFeatures) : List RecTag :=
  symptomSeg f ++ bmiSeg bmi ++ hydrationSeg f ++ exerciseSeg f ++ moodSeg f ++ sleepSeg f

/-- Function `generate_recommendations` — the `risk_level` parameter is
accepted but never read by the source. -/
def generateRecommendations (riskLevel : String) (bmi : ℚ) (f : LifestyleFeatures) :
    List RecTag :=
  let _ := riskLevel
  (buildRecs bmi f).take 6

/-! ### Endpoint: BMI classification and overall risk score -/

/-- The endpoint BMI, `bmi = user.weight / ((user.height / 100) ** 2)`. -/
def bmiOf (weight heightCm : ℚ) : ℚ := weight / ((heightCm / 100) ^ 2)

/-- The BMI cascade of `predict_health_risk` choosing `risk_level`. -/
def bmiRiskLevel (bmi : ℚ) : String :=
  if bmi < 18.5 then "Insufficient_Weight"
  else if bmi < 25 then "Normal_Weight"
  else if bmi < 27 then "Overweight_Level_I"
  else if bmi < 30 then "Overweight_Level_II"
  else if bmi < 35 then "Obesity_Type_I"
  else if bmi < 40 then "Obesity_Type_II"
  else "Obesity_Type_III"

/-- The risk score before clamping: baseline 50 and the sequence of
`risk_score += ...` adjustments of `predict_health_risk`. -/
def rawRiskScore (level : String) (f : LifestyleFeatures) : ℚ :=
  50
  + (if level = "Obesity_Type_II" ∨ level = "Obesity_Type_III" then 30
     else if level = "Obesity_Type_I" ∨ level = "Overweight_Level_II" then 15
     else if level = "Overweight_Level_I" then 5
     else if level = "Insufficient_Weight" then 10
     else 0)
  + (if 3 < f.symptomCount then 10 else 0)
  + (if f.exerciseDuration < 20 then 10 else 0)
  + (if f.dailyWaterMl < 1500 then 5 else 0)
  + (if f.sleepHours < 6 then 10 else 0)

/-- The clamp `risk_score = min(100, max(0, risk_score))`. -/
def overallRiskScore (level : String) (f : LifestyleFeatures) : ℚ :=
  min 100 (max 0 (rawRiskScore level f))

/-- The baseline-plus-penalties decomposition as the specification words
it: the penalty attached to the obesity risk level. -/
def obesityPenalty (level : String) : ℚ :=
  if level = "Obesity_Type_II" ∨ level = "Obesity_Type_III" then 30
  else if level = "Obesity_Type_I" ∨ level = "Overweight_Level_II" then 15
  else if level = "Overweight_Level_I" then 5
  else if level = "Insufficient_Weight" then 10
  else 0

/-- Penalty for an elevated symptom count. -/
def symptomPenalty (f : LifestyleFeatures) : ℚ := if 3 < f.symptomCount then 10 else 0

/-- Penalty for low exercise duration. -/
def exercisePenalty (f : LifestyleFeatures) : ℚ := if f.exerciseDuration < 20 then 10 else 0

/-- Penalty for low hydration. -/
def hydrationPenalty (f : LifestyleFeatures) : ℚ := if f.dailyWaterMl < 1500 then 5 else 0

/-- Penalty for low sleep. -/
def sleepPenalty (f : LifestyleFeatures) : ℚ := if f.sleepHours < 6 then 10 else 0

/-! ### ObesityFeatureEngineer.engineer_features

A tabular record: the columns either copy of the function reads or
writes are carried as typed optional fields (`none` = column absent),
every other column in `extra`, keeping the DataFrame column order.
`engineerFeatures` embeds the server copy
(`src/backend/fastapi_server.py`, class `ObesityFeatureEngineer`: BMI,
BMR, Activity_Score); `batchEngineerFeatures` embeds the batch copy in
`src/advanced_feature_engineering.py` (BMI; BMR with the pound heuristic
`Weight / 2.205` when the weight-column mean reaches 200;
Diet_Quality_Score; Activity_Score with a wider name scan; Sleep_Score;
Age_Bucket with its encoding), both on a single-row frame (so a column
mean equals the value). -/

inductive CellValue where
  | num (q : ℚ)
  | str (s : String)
  deriving DecidableEq

structure Record where
  /-- column `Age` -/
  age? : Option ℚ := none
  /-- column `Weight` -/
  weight? : Option ℚ := none
  /-- column `Height` -/
  height? : Option ℚ := none
  /-- column `Gender` -/
  gender? : Option String := none
  /-- column `BMI` -/
  bmi? : Option ℚ := none
  /-- column `BMR` -/
  bmr? : Option ℚ := none
  /-- column `Activity_Score` -/
  activityScore? : Option ℚ := none
  /-- column `Diet_Quality_Score` (batch copy only) -/
  dietQualityScore? : Option ℚ := none
  /-- column `Sleep_Score` (batch copy only) -/
  sleepScore? : Option ℚ := none
  /-- column `Age_Bucket` (batch copy only) -/
  ageBucket? : Option String := none
  /-- column `Age_Bucket_Encoded` (batch copy only) -/
  ageBucketEncoded? : Option Int := none
  /-- all remaining columns, in column order -/
  extra : List (String × CellValue) := []
  deriving DecidableEq

/-- The scan `any(x in c.lower() for x in ["physactive", "faf", "activity"])`
selecting activity columns by name.  Note that the name `Activity_Score`
itself satisfies it. -/
def activityKey (name : String) : Bool :=
  hasSubS "physactive" (lowerS name) || hasSubS "faf" (lowerS name) ||
    hasSubS "activity" (lowerS name)

/-- Contribution of one activity column to the score: a textual column
adds 1 when it contains `yes` (case-insensitive), a numeric column adds
its value (`fillna(0)` handles only missing data, not modelled). -/
def cellContrib : CellValue → ℚ
  | .num q => q
  | .str s => if hasSubS "yes" (lowerS s) then 1 else 0

/-- Case-insensitive substring containment of `female` in the gender
column, `df["Gender"].str.lower().str.contains("female")`. -/
def genderHasFemale (g : String) : Bool := hasSubS "female" (lowerS g)

/-- Case-insensitive substring containment of `male`. -/
def genderHasMale (g : String) : Bool := hasSubS "male" (lowerS g)

/-- The conversion `height_cm = Height * 100 if Height < 3 else Height`. -/
def heightCmOf (h : ℚ) : ℚ := if h < 3 then h * 100 else h

/-- Method `ObesityFeatureEngineer.engineer_features` on a single-row frame. -/
def engineerFeatures (r : Record) : Record :=
  -- BMI: only when the column is absent and both sources are present
  let bmi' : Option ℚ :=
    match r.bmi?, r.height?, r.weight? with
    | none, some h, some w => some (w / h ^ 2)
    | _, _, _ => r.bmi?
  -- BMR: recomputed whenever Age, Weight, Height and Gender are present
  let bmr' : Option ℚ :=
    match r.age?, r.weight?, r.height?, r.gender? with
    | some a, some w, some h, some g =>
      let base := 10 * w + 6.25 * heightCmOf h - 5 * a
      let afterFemale := if genderHasFemale g then base - 161 else base
      some (if genderHasMale g ∧ ¬ genderHasFemale g = true then afterFemale + 5
            else afterFemale)
    | _, _, _, _ => r.bmr?
  -- Activity_Score: summed over every column whose name matches the scan
  let extraActs := r.extra.filter fun kv => activityKey kv.1
  let act' : Option ℚ :=
    if extraActs ≠ [] ∨ r.activityScore?.isSome then
      some ((extraActs.map fun kv => cellContrib kv.2).sum + r.activityScore?.getD 0)
    else r.activityScore?
  { r with bmi? := bmi', bmr? := bmr', activityScore? := act' }

/-- The gender adjustment of the Mifflin-St Jeor formula as the
specification words it: `-161` on a `female` substring match, else `+5`
on a `male` match, else no adjustment. -/
def genderAdjust (g : String) : ℚ :=
  if genderHasFemale g then -161
  else if genderHasMale g then 5
  else 0

/-! ### The batch copy of engineer_features -/

/-- The pound heuristic of the batch copy,
`df["Weight"] if df["Weight"].mean() < 200 else df["Weight"] / 2.205`;
on a single-row frame the column mean is the value itself. -/
def batchWeightKg (w : ℚ) : ℚ := if w < 200 then w else w / 2.205

/-- The batch diet-column scan,
`any(x in c.lower() for x in ["food", "veg", "fruit", "water", "meal", "eat"])`.
No column name written by either engineer copy matches it. -/
def dietKey (name : String) : Bool :=
  hasSubS "food" (lowerS name) || hasSubS "veg" (lowerS name) ||
    hasSubS "fruit" (lowerS name) || hasSubS "water" (lowerS name) ||
    hasSubS "meal" (lowerS name) || hasSubS "eat" (lowerS name)

/-- The batch activity-column scan,
`any(x in c.lower() for x in ["physactive", "exercise", "activity", "sport", "walk"])`.
The name `Activity_Score` itself satisfies it. -/
def batchActivityKey (name : String) : Bool :=
  hasSubS "physactive" (lowerS name) || hasSubS "exercise" (lowerS name) ||
    hasSubS "activity" (lowerS name) || hasSubS "sport" (lowerS name) ||
    hasSubS "walk" (lowerS name)

/-- The batch sleep-column scan, `"sleep" in c.lower()`.  The name
`Sleep_Score` itself satisfies it. -/
def sleepKey (name : String) : Bool := hasSubS "sleep" (lowerS name)

/-- Whether a cell holds text (pandas dtype `object`). -/
def cellIsStr : CellValue → Bool
  | .num _ => false
  | .str _ => true

/-- Numeric value of a cell; the sum over textual sleep columns is not
exercised by any claim. -/
def numCell : CellValue → ℚ
  | .num q => q
  | .str _ => 0

/-- Label of `pd.cut(Age, bins=[0, 25, 35, 45, 55, 100], labels=[...])`
rendered through `astype(str)`: right-closed bins, values outside
(0, 100] become "nan". -/
def ageBucketLabel (a : ℚ) : String :=
  if a ≤ 0 then "nan"
  else if a ≤ 25 then "18-25"
  else if a ≤ 35 then "26-35"
  else if a ≤ 45 then "36-45"
  else if a ≤ 55 then "46-55"
  else if a ≤ 100 then "55+"
  else "nan"

/-- Method `ObesityFeatureEngineer.engineer_features` of
`src/advanced_feature_engineering.py` (steps 1 to 6 of the cited range:
BMI, BMR, Diet_Quality_Score, Activity_Score, Sleep_Score, Age_Bucket)
on a single-row frame.  The Diet score reproduces
`row.sum() if row.dtype != "object" else 0` (any textual selected column
makes the row dtype `object`); the single observed Age_Bucket label is
encoded 0 by the per-call `LabelEncoder`. -/
def batchEngineerFeatures (r : Record) : Record :=
  -- 1. BMI: only when the column is absent and both sources are present
  let bmi' : Option ℚ :=
    match r.bmi?, r.height?, r.weight? with
    | none, some h, some w => some (w / h ^ 2)
    | _, _, _ => r.bmi?
  -- 2. BMR: recomputed whenever Age, Weight, Height, Gender are present
  let bmr' : Option ℚ :=
    match r.age?, r.weight?, r.height?, r.gender? with
    | some a, some w, some h, some g =>
      let base := 10 * batchWeightKg w + 6.25 * heightCmOf h - 5 * a
      let afterFemale := if genderHasFemale g then base - 161 else base
      some (if genderHasMale g ∧ ¬ genderHasFemale g = true then afterFemale + 5
            else afterFemale)
    | _, _, _, _ => r.bmr?
  -- 3. Diet_Quality_Score: only when some column name matches the scan
  let dietCols := r.extra.filter fun kv => dietKey kv.1
  let diet' : Option ℚ :=
    if dietCols ≠ [] then
      some (if dietCols.any fun kv => cellIsStr kv.2 then 0
            else (dietCols.map fun kv => numCell kv.2).sum)
    else r.dietQualityScore?
  -- 4. Activity_Score: summed over every matching column, the previously
  -- derived Activity_Score column included
  let extraActs := r.extra.filter fun kv => batchActivityKey kv.1
  let act' : Option ℚ :=
    if extraActs ≠ [] ∨ r.activityScore?.isSome then
      some ((extraActs.map fun kv => cellContrib kv.2).sum + r.activityScore?.getD 0)
    else r.activityScore?
  -- 5. Sleep_Score: summed over every matching column, the previously
  -- derived Sleep_Score column included
  let extraSleeps := r.extra.filter fun kv => sleepKey kv.1
  let sleep' : Option ℚ :=
    if extraSleeps ≠ [] ∨ r.sleepScore?.isSome then
      some ((extraSleeps.map fun kv => numCell kv.2).sum + r.sleepScore?.getD 0)
    else r.sleepScore?
  -- 6. Age buckets: recomputed whenever Age is present
  let bucket' : Option String :=
    match r.age? with
    | some a => some (ageBucketLabel a)
    | none => r.ageBucket?
  let enc' : Option Int :=
    match r.age? with
    | some _ => some 0
    | none => r.ageBucketEncoded?
  { r with
    bmi? := bmi'
    bmr? := bmr'
    dietQualityScore? := diet'
    activityScore? := act'
    sleepScore? := sleep'
    ageBucket? := bucket'
    ageBucketEncoded? := enc' }

/-- The BMR computed inside `predict_health_risk`
(`src/backend/fastapi_server.py`, lines 596 to 604): the gender test is
the exact equality `user.gender.lower() == "male"`, not a substring
match, and every non-match takes the female branch. -/
def endpointBMR (weight heightCm age : ℚ) (gender : String) : ℚ :=
  if lowerS gender = "male" then
    (10 * weight) + (6.25 * heightCm) - (5 * age) + 5
  else
    (10 * weight) + (6.25 * heightCm) - (5 * age) - 161

/-! ### The ordering relation of the probable-conditions ranking -/

/-- Score descending, ties by declaration index ascending — the order a
stable descending sort realises on pairs listed in declaration order. -/
def pairRel (p q : Category × Int) : Prop :=
  q.2 < p.2 ∨ (p.2 = q.2 ∧ catIdx p.1 < catIdx q.1)

/-! ### Concrete inputs used by counterexamples and witnesses -/

/-- A symptom arriving under the key `symptomType` only. -/
def sympChestAlt : Symptom := { symptomTypeField := some "chest pain", severityField := some 3 }

/-- The specification test vector: `type` chest pain, severity 9. -/
def sympChest9 : Symptom := { typeField := some "chest pain", severityField := some 9 }

/-- A symptom with a positive severity but no type key at all. -/
def sympNoType : Symptom := { severityField := some 5 }

/-- A mild symptom used to instantiate non-empty lists. -/
def sympMild : Symptom := { typeField := some "cough", severityField := some 2 }

/-- Fatigue, matching the Endocrine/Metabolic category first. -/
def sympFatigue : Symptom := { typeField := some "fatigue", severityField := some 4 }

/-- Fever, matching the General/Systemic category. -/
def sympFever : Symptom := { typeField := some "fever", severityField := some 4 }

/-- A record holding only the `FAF` physical-activity column. -/
def recFAF : Record := { extra := [("FAF", CellValue.num 2)] }

/-- The specification BMR test vector (male, 85 kg, 175 cm, 25 y). -/
def recMale : Record :=
  { age? := some 25, weight? := some 85, height? := some 175, gender? := some "Male" }

/-- A record with a weight but no height. -/
def recNoHeight : Record := { weight? := some 70 }

/-- A record whose weight, 250, triggers the batch pound heuristic. -/
def recHeavy : Record :=
  { age? := some 25, weight? := some 250, height? := some 175, gender? := some "Male" }

/-- A lifestyle payload with no sleep, calorie, or heart-rate data. -/
def lifestyleNoSleep : DailyLifestyleData := { totalWaterMl := 2000, hydrationLogs := 1 }

/-! ## Theorems -/

/-- Claim C1: for every request to the health-risk prediction endpoint
(the BMI-derived obesity risk level together with the aggregated
lifestyle features), the overall risk score is the baseline 50 plus the
fixed additive penalties for obesity risk level, symptom count, low
exercise duration, low hydration and low sleep, clamped so that the
returned value always satisfies 0 ≤ score ≤ 100. -/
theorem C1_overall_risk_score (bmi : ℚ) (f : LifestyleFeatures) :
    overallRiskScore (bmiRiskLevel bmi) f
      = min 100 (max 0 (50 + obesityPenalty (bmiRiskLevel bmi) + symptomPenalty f
          + exercisePenalty f + hydrationPenalty f + sleepPenalty f))
    ∧ 0 ≤ overallRiskScore (bmiRiskLevel bmi) f
    ∧ overallRiskScore (bmiRiskLevel bmi) f ≤ 100 := by
  refine ⟨rfl, ?_, ?_⟩
  · exact le_min (by norm_num) (le_max_left 0 _)
  · exact min_le_left 100 _

/-- Claim C10 (implicit): every adjustment of the overall risk score is
a non-negative addition to the baseline 50, so the pre-clamp score is at
least 50, the lower clamp at 0 is never the binding bound, and the
returned score lies in [50, 100]. -/
theorem C10_risk_score_floor (bmi : ℚ) (f : LifestyleFeatures) :
    50 ≤ rawRiskScore (bmiRiskLevel bmi) f
    ∧ max 0 (rawRiskScore (bmiRiskLevel bmi) f) = rawRiskScore (bmiRiskLevel bmi) f
    ∧ 50 ≤ overallRiskScore (bmiRiskLevel bmi) f
    ∧ overallRiskScore (bmiRiskLevel bmi) f ≤ 100 := by
  have h50 : 50 ≤ rawRiskScore (bmiRiskLevel bmi) f := by
    unfold rawRiskScore
    split_ifs <;> norm_num
  have hmax : max 0 (rawRiskScore (bmiRiskLevel bmi) f) = rawRiskScore (bmiRiskLevel bmi) f :=
    max_eq_right (le_trans (by norm_num) h50)
  refine ⟨h50, hmax, ?_, min_le_left 100 _⟩
  unfold overallRiskScore
  rw [hmax]
  exact le_min (by norm_num) h50

/-- Claim C3: the symptom analysis is absent (None) exactly for the
empty symptom list; every non-empty list produces an analysis object. -/
theorem C3_empty_analysis_absent :
    analyzeSymptomRisks ([] : List Symptom) = none
    ∧ endpointSymptomAnalysis ([] : List Symptom) = none
    ∧ ∀ l : List Symptom, l ≠ [] → (analyzeSymptomRisks l).isSome = true
        ∧ (endpointSymptomAnalysis l).isSome = true := by
  refine ⟨rfl, rfl, ?_⟩
  intro l hl
  cases l with
  | nil => exact absurd rfl hl
  | cons a t => exact ⟨rfl, rfl⟩

theorem C3_empty_analysis_absent_witness :
    ([sympMild] ≠ ([] : List Symptom))
    ∧ (analyzeSymptomRisks [sympMild]).isSome = true
    ∧ (endpointSymptomAnalysis [sympMild]).isSome = true :=
  ⟨by decide, C3_empty_analysis_absent.2.2 [sympMild] (by decide)⟩

/-- Claim C8: feature derivation is not idempotent.  On a record whose
only column is `FAF = 2`, the first run creates `Activity_Score = 2`;
the second run re-matches the column scan against the freshly created
`Activity_Score` column (its name contains `activity`) and doubles the
value to 4, overwriting a derived column with a different value. -/
theorem C8_engineer_features_not_idempotent :
    (engineerFeatures recFAF).activityScore? = some 2
    ∧ (engineerFeatures (engineerFeatures recFAF)).activityScore? = some 4
    ∧ engineerFeatures (engineerFeatures recFAF) ≠ engineerFeatures recFAF := by
  have hfilter : recFAF.extra.filter (fun kv => activityKey kv.1) = [("FAF", CellValue.num 2)] := by
    decide
  have h1 : (engineerFeatures recFAF).activityScore? = some 2 := by
    simp [engineerFeatures, hfilter]
    norm_num [recFAF, cellContrib]
  have hx : (engineerFeatures recFAF).extra = recFAF.extra := rfl
  have h2 : (engineerFeatures (engineerFeatures recFAF)).activityScore? = some 4 := by
    simp [engineerFeatures, hfilter, hx, h1]
    norm_num [recFAF, cellContrib]
  refine ⟨h1, h2, fun hEq => ?_⟩
  rw [hEq, h1] at h2
  exact absurd (Option.some.inj h2) (by norm_num)

/-- Claim C6, counterexample: the claim also covers the BMR computed by
the cited `/predict/health-risk` endpoint, where the gender test is the
exact equality `user.gender.lower() == "male"`.  There "transmale" — the
string the claim names as matching the male branch — takes the female
branch and yields 1657.75, not the substring-rule value 1823.75.  In the
cited batch copy, a weight of 250 additionally passes through the pound
heuristic, so the derived BMR differs from the bare formula
`10 * weight + ...` as well. -/
theorem C6_endpoint_gender_counterexample :
    endpointBMR 85 175 25 "transmale" = 1657.75
    ∧ genderAdjust "transmale" = 5
    ∧ endpointBMR 85 175 25 "transmale"
        ≠ 10 * 85 + 6.25 * heightCmOf 175 - 5 * 25 + genderAdjust "transmale"
    ∧ (batchEngineerFeatures recHeavy).bmr? = some (10 * (250 / 2.205) + 6.25 * 175 - 5 * 25 + 5)
    ∧ (batchEngineerFeatures recHeavy).bmr? ≠ some (10 * 250 + 6.25 * 175 - 5 * 25 + 5) := by
  have hne : lowerS "transmale" ≠ "male" := by decide
  have h1 : endpointBMR 85 175 25 "transmale" = 1657.75 := by
    rw [endpointBMR, if_neg hne]
    norm_num
  have hadj : genderAdjust "transmale" = 5 := by decide
  have hf : genderHasFemale "Male" = false := by decide
  have hm : genderHasMale "Male" = true := by decide
  have hb : (batchEngineerFeatures recHeavy).bmr?
      = some (10 * (250 / 2.205) + 6.25 * 175 - 5 * 25 + 5) := by
    simp only [batchEngineerFeatures, recHeavy]
    norm_num [hf, hm, batchWeightKg, heightCmOf]
  refine ⟨h1, hadj, ?_, hb, ?_⟩
  · rw [h1, hadj]
    norm_num [heightCmOf]
  · rw [hb]
    norm_num

/-- Claim C6 as amended: in both copies of
`ObesityFeatureEngineer.engineer_features` the derived BMR column equals
`10*weight_kg + 6.25*height_cm - 5*age` adjusted by `-161` when the
gender string case-insensitively contains `female`, by `+5` when it
contains `male` but not `female`, and by nothing otherwise — "Female"
and "female " (trailing space) both receive the female adjustment,
"Male" receives only `+5`, and "transmale" falls in the male branch
(substring containment, not equality); in the batch copy `weight_kg` is
first divided by 2.205 when the weight-column mean reaches 200.  The
BMR computed inline by the `/predict/health-risk` endpoint, however,
uses the exact equality `gender.lower() == "male"`: any other gender
string, "transmale" and "female " included, takes the `-161` branch
there. -/
theorem C6_bmr_mifflin :
    (∀ (r : Record) (a w h : ℚ) (g : String),
        r.age? = some a → r.weight? = some w → r.height? = some h → r.gender? = some g →
        (engineerFeatures r).bmr? = some (10 * w + 6.25 * heightCmOf h - 5 * a + genderAdjust g))
    ∧ genderAdjust "Female" = -161
    ∧ genderAdjust "female " = -161
    ∧ genderAdjust "Male" = 5
    ∧ genderAdjust "transmale" = 5
    ∧ (∀ (r : Record) (a w h : ℚ) (g : String),
        r.age? = some a → r.weight? = some w → r.height? = some h → r.gender? = some g →
        (batchEngineerFeatures r).bmr?
          = some (10 * batchWeightKg w + 6.25 * heightCmOf h - 5 * a + genderAdjust g))
    ∧ (∀ (w h a : ℚ) (g : String), lowerS g = "male" →
        endpointBMR w h a g = 10 * w + 6.25 * h - 5 * a + 5)
    ∧ (∀ (w h a : ℚ) (g : String), lowerS g ≠ "male" →
        endpointBMR w h a g = 10 * w + 6.25 * h - 5 * a - 161)
    ∧ lowerS "transmale" ≠ "male" := by
  refine ⟨?_, by decide, by decide, by decide, by decide, ?_, ?_, ?_, by decide⟩
  · intro r a w h g ha hw hh hg
    simp only [engineerFeatures, ha, hw, hh, hg]
    by_cases hf : genderHasFemale g = true <;> by_cases hm : genderHasMale g = true <;>
      simp [hf, hm, genderAdjust] <;> ring
  · intro r a w h g ha hw hh hg
    simp only [batchEngineerFeatures, ha, hw, hh, hg]
    by_cases hf : genderHasFemale g = true <;> by_cases hm : genderHasMale g = true <;>
      simp [hf, hm, genderAdjust] <;> ring
  · intro w h a g hg
    rw [endpointBMR, if_pos hg]
  · intro w h a g hg
    rw [endpointBMR, if_neg hg]

theorem C6_bmr_mifflin_witness :
    (engineerFeatures recMale).bmr? = some 1823.75 := by
  rw [C6_bmr_mifflin.1 recMale 25 85 175 "Male" rfl rfl rfl rfl]
  have hadj : genderAdjust "Male" = 5 := by decide
  rw [hadj]
  norm_num [heightCmOf]

/-- Claim C2, counterexample: a single symptom arriving under the
`symptomType` key with value "chest pain" and severity 3.  After step-1
normalization its type contains "chest pain", so the claim demands risk
level Critical, but the code evaluates the chest-pain test on the raw
`type` key only (absent here) and returns "Low". -/
theorem C2_chest_pain_counterexample :
    hasSubS "chest pain" (normType sympChestAlt) = true
    ∧ (riskLevelUrgency [sympChestAlt]).1 = "Low"
    ∧ (riskLevelUrgency [sympChestAlt]).1 ≠ "Critical" := by
  have havg : avgSeverity [sympChestAlt] = 3 := by
    norm_num [avgSeverity, totalSeverity, sevOf, sympChestAlt]
  have hmax : maxSeverity [sympChestAlt] = 3 := by decide
  have hcp : chestPainRaw [sympChestAlt] = false := by decide
  refine ⟨by decide, ?_, ?_⟩
  · norm_num [riskLevelUrgency, havg, hmax, hcp]
  · norm_num [riskLevelUrgency, havg, hmax, hcp]
    decide

/-- Claim C2 as amended: for every non-empty symptom list the analysis
returns Critical paired with its urgency string exactly when the count
is at least 5, or some severity is at least 8, or the raw `type` field
of some symptom (lowercased, not the cross-field normalized value)
contains "chest pain"; otherwise High exactly when count is at least 3
or average severity at least 6; otherwise Moderate exactly when count is
at least 2 or average severity at least 4; otherwise Low — each level
paired with its fixed urgency string, checked in that priority order. -/
theorem C2_risk_level_cascade (l : List Symptom) (_hl : l ≠ []) :
    (riskLevelUrgency l = ("Critical", urgencyCritical) ↔
       (5 ≤ l.length ∨ 8 ≤ maxSeverity l ∨ chestPainRaw l = true))
    ∧ (riskLevelUrgency l = ("High", urgencyHigh) ↔
       (¬ (5 ≤ l.length ∨ 8 ≤ maxSeverity l ∨ chestPainRaw l = true)
         ∧ (3 ≤ l.length ∨ (6 : ℚ) ≤ avgSeverity l)))
    ∧ (riskLevelUrgency l = ("Moderate", urgencyModerate) ↔
       (¬ (5 ≤ l.length ∨ 8 ≤ maxSeverity l ∨ chestPainRaw l = true)
         ∧ ¬ (3 ≤ l.length ∨ (6 : ℚ) ≤ avgSeverity l)
         ∧ (2 ≤ l.length ∨ (4 : ℚ) ≤ avgSeverity l)))
    ∧ (riskLevelUrgency l = ("Low", urgencyLow) ↔
       (¬ (5 ≤ l.length ∨ 8 ≤ maxSeverity l ∨ chestPainRaw l = true)
         ∧ ¬ (3 ≤ l.length ∨ (6 : ℚ) ≤ avgSeverity l)
         ∧ ¬ (2 ≤ l.length ∨ (4 : ℚ) ≤ avgSeverity l))) := by
  unfold riskLevelUrgency
  split_ifs with h1 h2 h3 <;>
    simp_all [urgencyCritical, urgencyHigh, urgencyModerate, urgencyLow, Prod.ext_iff]

theorem C2_risk_level_cascade_witness :
    ([sympChest9] ≠ ([] : List Symptom))
    ∧ (riskLevelUrgency [sympChest9] = ("Critical", urgencyCritical) ↔
        (5 ≤ ([sympChest9] : List Symptom).length ∨ 8 ≤ maxSeverity [sympChest9]
          ∨ chestPainRaw [sympChest9] = true)) :=
  ⟨by decide, (C2_risk_level_cascade [sympChest9] (by decide)).1⟩

/-! ### Helper lemmas for the recommendation generator -/

theorem mem_symptomSeg (f : LifestyleFeatures) (t : RecTag) :
    t ∈ symptomSeg f ↔
      (0 < f.symptomCount ∧ (5 ≤ f.symptomCount ∨ 8 ≤ f.maxSymptomSeverity)
        ∧ t = RecTag.urgentSymptoms)
      ∨ (0 < f.symptomCount ∧ ¬ (5 ≤ f.symptomCount ∨ 8 ≤ f.maxSymptomSeverity)
        ∧ (3 ≤ f.symptomCount ∨ (6 : ℚ) ≤ f.avgSymptomSeverity)
        ∧ t = RecTag.checkupSymptoms)
      ∨ (0 < f.symptomCount ∧ ¬ (5 ≤ f.symptomCount ∨ 8 ≤ f.maxSymptomSeverity)
        ∧ ¬ (3 ≤ f.symptomCount ∨ (6 : ℚ) ≤ f.avgSymptomSeverity)
        ∧ t = RecTag.monitorSymptoms) := by
  unfold symptomSeg
  split_ifs <;> simp [*]

theorem mem_bmiSeg (bmi : ℚ) (t : RecTag) :
    t ∈ bmiSeg bmi ↔
      (bmi < 18.5 ∧ t = RecTag.bmiUnderweight)
      ∨ (¬ bmi < 18.5 ∧ 30 ≤ bmi ∧ t = RecTag.bmiObese)
      ∨ (¬ bmi < 18.5 ∧ ¬ 30 ≤ bmi ∧ 25 ≤ bmi ∧ t = RecTag.bmiOverweight) := by
  unfold bmiSeg
  split_ifs <;> simp [*]

theorem mem_hydrationSeg (f : LifestyleFeatures) (t : RecTag) :
    t ∈ hydrationSeg f ↔ (f.dailyWaterMl < 1500 ∧ t = RecTag.lowHydration) := by
  unfold hydrationSeg
  split_ifs <;> simp_all

theorem mem_exerciseSeg (f : LifestyleFeatures) (t : RecTag) :
    t ∈ exerciseSeg f ↔ (f.exerciseDuration < 30 ∧ t = RecTag.lowExercise) := by
  unfold exerciseSeg
  split_ifs <;> simp_all

theorem mem_moodSeg (f : LifestyleFeatures) (t : RecTag) :
    t ∈ moodSeg f ↔ (f.avgMoodIntensity < 4 ∧ t = RecTag.lowMood) := by
  unfold moodSeg
  split_ifs <;> simp_all

theorem mem_sleepSeg (f : LifestyleFeatures) (t : RecTag) :
    t ∈ sleepSeg f ↔ (f.sleepHours < 6 ∧ t = RecTag.lowSleep) := by
  unfold sleepSeg
  split_ifs <;> simp_all

theorem buildRecs_length (bmi : ℚ) (f : LifestyleFeatures) :
    (buildRecs bmi f).length ≤ 6 := by
  have l1 : (symptomSeg f).length ≤ 1 := by unfold symptomSeg; split_ifs <;> simp
  have l2 : (bmiSeg bmi).length ≤ 1 := by unfold bmiSeg; split_ifs <;> simp
  have l3 : (hydrationSeg f).length ≤ 1 := by unfold hydrationSeg; split_ifs <;> simp
  have l4 : (exerciseSeg f).length ≤ 1 := by unfold exerciseSeg; split_ifs <;> simp
  have l5 : (moodSeg f).length ≤ 1 := by unfold moodSeg; split_ifs <;> simp
  have l6 : (sleepSeg f).length ≤ 1 := by unfold sleepSeg; split_ifs <;> simp
  unfold buildRecs
  simp only [List.length_append]
  omega

/-- Claim C7: for every risk level, BMI value and lifestyle feature
mapping, the recommendation generator returns at most 6 advisories, in
the fixed priority order symptom urgency, BMI category, hydration,
exercise duration, mood, sleep (truncation never discards anything, so
the output equals the untruncated build), and each rule fires
independently on its own threshold — the symptom block exactly when a
symptom is logged (tiered at count/severity), the BMI category at
<18.5 / >=30 / >=25 in elif order, water below 1500 ml, exercise below
30 min, mood below 4, sleep below 6 h — with no rule suppressing
another. -/
theorem C7_recommendations (lvl : String) (bmi : ℚ) (f : LifestyleFeatures) :
    (generateRecommendations lvl bmi f).length ≤ 6
    ∧ generateRecommendations lvl bmi f = buildRecs bmi f
    ∧ (RecTag.urgentSymptoms ∈ generateRecommendations lvl bmi f ↔
        (0 < f.symptomCount ∧ (5 ≤ f.symptomCount ∨ 8 ≤ f.maxSymptomSeverity)))
    ∧ (RecTag.checkupSymptoms ∈ generateRecommendations lvl bmi f ↔
        (0 < f.symptomCount ∧ ¬ (5 ≤ f.symptomCount ∨ 8 ≤ f.maxSymptomSeverity)
          ∧ (3 ≤ f.symptomCount ∨ (6 : ℚ) ≤ f.avgSymptomSeverity)))
    ∧ (RecTag.monitorSymptoms ∈ generateRecommendations lvl bmi f ↔
        (0 < f.symptomCount ∧ ¬ (5 ≤ f.symptomCount ∨ 8 ≤ f.maxSymptomSeverity)
          ∧ ¬ (3 ≤ f.symptomCount ∨ (6 : ℚ) ≤ f.avgSymptomSeverity)))
    ∧ (RecTag.bmiUnderweight ∈ generateRecommendations lvl bmi f ↔ bmi < 18.5)
    ∧ (RecTag.bmiObese ∈ generateRecommendations lvl bmi f ↔ (¬ bmi < 18.5 ∧ 30 ≤ bmi))
    ∧ (RecTag.bmiOverweight ∈ generateRecommendations lvl bmi f ↔
        (¬ bmi < 18.5 ∧ ¬ 30 ≤ bmi ∧ 25 ≤ bmi))
    ∧ (RecTag.lowHydration ∈ generateRecommendations lvl bmi f ↔ f.dailyWaterMl < 1500)
    ∧ (RecTag.lowExercise ∈ generateRecommendations lvl bmi f ↔ f.exerciseDuration < 30)
    ∧ (RecTag.lowMood ∈ generateRecommendations lvl bmi f ↔ f.avgMoodIntensity < 4)
    ∧ (RecTag.lowSleep ∈ generateRecommendations lvl bmi f ↔ f.sleepHours < 6) := by
  have htake : generateRecommendations lvl bmi f = buildRecs bmi f := by
    unfold generateRecommendations
    exact List.take_of_length_le (buildRecs_length bmi f)
  refine ⟨htake ▸ buildRecs_length bmi f, htake, ?_, ?_, ?_, ?_, ?_, ?_, ?_, ?_, ?_, ?_⟩ <;>
    (rw [htake]; unfold buildRecs;
     simp only [List.mem_append, mem_symptomSeg, mem_bmiSeg, mem_hydrationSeg,
       mem_exerciseSeg, mem_moodSeg, mem_sleepSeg];
     simp; try tauto)

/-- Unrolling lemma for the score dictionary fold. -/
theorem foldl_scoreStep (l : List Symptom) (init : Category → Int) (c : Category) :
    (l.foldl scoreStep init) c
      = init c + (l.map fun s => if firstMatch (normType s) = some c then sevOf s else 0).sum := by
  induction l generalizing init with
  | nil => simp
  | cons s t ih =>
    simp only [List.foldl_cons, List.map_cons, List.sum_cons, ih]
    unfold scoreStep bumpScore
    cases h : firstMatch (normType s) with
    | none => simp [h]
    | some c0 =>
      by_cases hc : c = c0
      · subst hc
        simp [h]
        ring
      · simp [h, hc, Ne.symm hc]

/-- Claim C4, counterexample: a symptom with severity 5 and no type key.
Its normalized type is the empty string, which by the claimed
bidirectional substring rule (the type is a substring of the phrase)
matches the first category, Cardiovascular — yet the code, guarded by
`if symptom_type and ...`, adds the severity to no category at all. -/
theorem C4_empty_type_counterexample :
    sevOf sympNoType = 5
    ∧ normType sympNoType = ""
    ∧ firstMatchClaim (normType sympNoType) = some Category.cardiovascular
    ∧ firstMatch (normType sympNoType) = none
    ∧ conditionScores [sympNoType] Category.cardiovascular = 0 := by decide

/-- Claim C4 as amended: every symptom whose normalized type is
non-empty adds its severity to exactly the first condition category (in
table-declaration order) with a bidirectionally matching keyword phrase,
and to no other category; a symptom with an empty normalized type
matches nothing.  Equivalently, each score is the sum of the severities
of exactly the symptoms whose first (guarded) match is that category. -/
theorem C4_first_match_scoring :
    (∀ (l : List Symptom) (c : Category),
        conditionScores l c
          = (l.map fun s => if firstMatch (normType s) = some c then sevOf s else 0).sum)
    ∧ (∀ t : String, t ≠ "" → firstMatch t = firstMatchClaim t)
    ∧ firstMatch "" = none := by
  refine ⟨?_, ?_, rfl⟩
  · intro l c
    have h := foldl_scoreStep l (fun _ => 0) c
    simpa [conditionScores] using h
  · intro t ht
    unfold firstMatch firstMatchClaim
    rw [if_neg ht]

theorem C4_first_match_scoring_witness :
    ("fatigue" ≠ "") ∧ firstMatch "fatigue" = firstMatchClaim "fatigue" :=
  ⟨by decide, C4_first_match_scoring.2.1 "fatigue" (by decide)⟩

/-- Claim C9, counterexample: a lifestyle payload with `sleepHours`,
`caloriesConsumed` and `heartRate` absent and no mood logs.  The
aggregation does not omit the dependent features — it fabricates fixed
defaults (sleep 7.0, calories 2000, heart rate 0, mood 5), contradicting
the claim that absent sources leave the feature out of the output. -/
theorem C9_fabricated_defaults_counterexample :
    lifestyleNoSleep.sleepHours = none
    ∧ (aggregateLifestyleData lifestyleNoSleep).sleepHours = 7
    ∧ lifestyleNoSleep.caloriesConsumed = none
    ∧ (aggregateLifestyleData lifestyleNoSleep).caloriesConsumed = 2000
    ∧ lifestyleNoSleep.heartRate = none
    ∧ (aggregateLifestyleData lifestyleNoSleep).heartRate = 0
    ∧ lifestyleNoSleep.moodLogs = []
    ∧ (aggregateLifestyleData lifestyleNoSleep).avgMoodIntensity = 5 :=
  ⟨rfl, rfl, rfl, rfl, rfl, rfl, rfl, rfl⟩

/-- Claim C9 as amended: in the batch feature-engineering function every
derivation rule of the cited range is guarded by presence of its source
columns and the feature is omitted (left unchanged) when a source is
absent, without error — BMI needs Height and Weight and is added only
when absent; BMR needs Age, Weight, Height and Gender; the Diet,
Activity and Sleep scores need at least one column matching their name
scans; the Age bucket and its encoding need Age.  The lifestyle
aggregation, however, never omits — absent optional fields are replaced
by fixed defaults (sleep 7.0, calories 2000, heart rate 0, average mood
5) and the feature is always present. -/
theorem C9_guarded_derivation :
    (∀ r : Record, r.bmi? = none → (r.height? = none ∨ r.weight? = none) →
       (batchEngineerFeatures r).bmi? = none)
    ∧ (∀ r : Record,
        (r.age? = none ∨ r.weight? = none ∨ r.height? = none ∨ r.gender? = none) →
       (batchEngineerFeatures r).bmr? = r.bmr?)
    ∧ (∀ r : Record, r.extra.filter (fun kv => dietKey kv.1) = [] →
       (batchEngineerFeatures r).dietQualityScore? = r.dietQualityScore?)
    ∧ (∀ r : Record, r.extra.filter (fun kv => batchActivityKey kv.1) = [] →
        r.activityScore? = none →
       (batchEngineerFeatures r).activityScore? = none)
    ∧ (∀ r : Record, r.extra.filter (fun kv => sleepKey kv.1) = [] →
        r.sleepScore? = none →
       (batchEngineerFeatures r).sleepScore? = none)
    ∧ (∀ r : Record, r.age? = none →
        (batchEngineerFeatures r).ageBucket? = r.ageBucket?
        ∧ (batchEngineerFeatures r).ageBucketEncoded? = r.ageBucketEncoded?)
    ∧ (∀ d : DailyLifestyleData, d.sleepHours = none →
       (aggregateLifestyleData d).sleepHours = 7)
    ∧ (∀ d : DailyLifestyleData, d.caloriesConsumed = none →
       (aggregateLifestyleData d).caloriesConsumed = 2000)
    ∧ (∀ d : DailyLifestyleData, d.heartRate = none →
       (aggregateLifestyleData d).heartRate = 0)
    ∧ (∀ d : DailyLifestyleData, d.moodLogs = [] →
       (aggregateLifestyleData d).avgMoodIntensity = 5) := by
  refine ⟨?_, ?_, ?_, ?_, ?_, ?_, ?_, ?_, ?_, ?_⟩
  · intro r h1 h2
    rcases h2 with h2 | h2 <;> simp [batchEngineerFeatures, h1, h2]
  · intro r h
    rcases h with h | h | h | h <;> simp [batchEngineerFeatures, h]
  · intro r h
    simp [batchEngineerFeatures, h]
  · intro r h1 h2
    simp [batchEngineerFeatures, h1, h2]
  · intro r h1 h2
    simp [batchEngineerFeatures, h1, h2]
  · intro r h
    exact ⟨by simp [batchEngineerFeatures, h], by simp [batchEngineerFeatures, h]⟩
  · intro d h
    simp [aggregateLifestyleData, h, pyOrQ]
  · intro d h
    simp [aggregateLifestyleData, h, pyOrInt]
  · intro d h
    simp [aggregateLifestyleData, h, pyOrInt]
  · intro d h
    simp [aggregateLifestyleData, h]

theorem C9_guarded_derivation_witness :
    recNoHeight.bmi? = none
    ∧ (recNoHeight.height? = none ∨ recNoHeight.weight? = none)
    ∧ (batchEngineerFeatures recNoHeight).bmi? = none
    ∧ recNoHeight.age? = none
    ∧ (batchEngineerFeatures recNoHeight).ageBucket? = recNoHeight.ageBucket?
    ∧ lifestyleNoSleep.sleepHours = none
    ∧ (aggregateLifestyleData lifestyleNoSleep).sleepHours = 7 :=
  ⟨rfl, Or.inl rfl, C9_guarded_derivation.1 recNoHeight rfl (Or.inl rfl),
   rfl, (C9_guarded_derivation.2.2.2.2.2.1 recNoHeight rfl).1,
   rfl, C9_guarded_derivation.2.2.2.2.2.2.1 lifestyleNoSleep rfl⟩

/-! ### Helper lemmas for the probable-conditions ranking -/

theorem mem_insertD {x y : Category × Int} {l : List (Category × Int)} :
    y ∈ insertD x l ↔ y = x ∨ y ∈ l := by
  induction l with
  | nil => simp [insertD]
  | cons h t ih =>
    unfold insertD
    split_ifs <;> (simp [ih]; try tauto)

theorem insertD_pairwise {x : Category × Int} {l : List (Category × Int)}
    (hl : l.Pairwise pairRel) (hidx : ∀ p ∈ l, catIdx p.1 < catIdx x.1) :
    (insertD x l).Pairwise pairRel := by
  induction l with
  | nil => simp [insertD, List.pairwise_cons]
  | cons h t ih =>
    rw [List.pairwise_cons] at hl
    obtain ⟨hht, htp⟩ := hl
    unfold insertD
    split_ifs with hx
    · refine List.Pairwise.cons ?_ (List.Pairwise.cons hht htp)
      intro q hq
      rcases List.mem_cons.mp hq with rfl | hq
      · exact Or.inl hx
      · rcases hht q hq with h1 | ⟨h1, _⟩
        · exact Or.inl (lt_trans h1 hx)
        · exact Or.inl (h1 ▸ hx)
    · refine List.Pairwise.cons ?_ (ih htp fun p hp => hidx p (List.mem_cons_of_mem _ hp))
      intro q hq
      rcases mem_insertD.mp hq with rfl | hq
      · rcases lt_or_eq_of_le (not_lt.mp hx) with h1 | h1
        · exact Or.inl h1
        · exact Or.inr ⟨h1.symm, hidx h (List.mem_cons_self _ _)⟩
      · exact hht q hq

theorem mem_foldl_insertD (m : List (Category × Int)) :
    ∀ (acc : List (Category × Int)) (q : Category × Int),
      q ∈ m.foldl (fun a x => insertD x a) acc ↔ q ∈ m ∨ q ∈ acc := by
  induction m with
  | nil => intro acc q; simp
  | cons x t ih =>
    intro acc q
    simp only [List.foldl_cons, ih, mem_insertD, List.mem_cons]
    tauto

theorem mem_sortD {m : List (Category × Int)} {q : Category × Int} :
    q ∈ sortD m ↔ q ∈ m := by
  simp [sortD, mem_foldl_insertD]

theorem sortD_pairwise_aux (m : List (Category × Int)) :
    ∀ acc : List (Category × Int), acc.Pairwise pairRel →
      (∀ p ∈ acc, ∀ q ∈ m, catIdx p.1 < catIdx q.1) →
      m.Pairwise (fun p q => catIdx p.1 < catIdx q.1) →
      (m.foldl (fun a x => insertD x a) acc).Pairwise pairRel := by
  induction m with
  | nil => intro acc h _ _; simpa using h
  | cons x t ih =>
    intro acc hacc hcross hm
    rw [List.pairwise_cons] at hm
    simp only [List.foldl_cons]
    apply ih
    · exact insertD_pairwise hacc fun p hp => hcross p hp x (List.mem_cons_self _ _)
    · intro p hp q hq
      rcases mem_insertD.mp hp with rfl | hp
      · exact hm.1 q hq
      · exact hcross p hp q (List.mem_cons_of_mem _ hq)
    · exact hm.2

theorem sortD_pairwise {m : List (Category × Int)}
    (hm : m.Pairwise (fun p q => catIdx p.1 < catIdx q.1)) :
    (sortD m).Pairwise pairRel :=
  sortD_pairwise_aux m [] (List.Pairwise.nil) (by simp) hm

theorem collectTop_length : ∀ (m : List (Category × Int)) (k : Nat),
    (collectTop m k).length ≤ 3 - k := by
  intro m
  induction m with
  | nil => intro k; simp [collectTop]
  | cons p t ih =>
    intro k
    unfold collectTop
    split_ifs with h
    · have := ih (k + 1)
      simp only [List.length_cons]
      omega
    · exact ih k

theorem collectTop_mem : ∀ (m : List (Category × Int)) (k : Nat) (c : Category),
    c ∈ collectTop m k → ∃ p ∈ m, p.1 = c ∧ 0 < p.2 := by
  intro m
  induction m with
  | nil => intro k c hc; simp [collectTop] at hc
  | cons p t ih =>
    intro k c hc
    unfold collectTop at hc
    split_ifs at hc with h
    · rcases List.mem_cons.mp hc with rfl | hc
      · exact ⟨p, List.mem_cons_self _ _, rfl, h.1⟩
      · obtain ⟨q, hq, hq1, hq2⟩ := ih (k + 1) c hc
        exact ⟨q, List.mem_cons_of_mem _ hq, hq1, hq2⟩
    · obtain ⟨q, hq, hq1, hq2⟩ := ih k c hc
      exact ⟨q, List.mem_cons_of_mem _ hq, hq1, hq2⟩

theorem collectTop_sublist : ∀ (m : List (Category × Int)) (k : Nat),
    (collectTop m k).Sublist (m.map (·.1)) := by
  intro m
  induction m with
  | nil => intro k; simp [collectTop]
  | cons p t ih =>
    intro k
    unfold collectTop
    split_ifs with h
    · exact List.Sublist.cons₂ _ (ih (k + 1))
    · exact List.Sublist.cons _ (ih k)

theorem collectTop_ne_nil : ∀ (m : List (Category × Int)) (k : Nat),
    k < 3 → (∃ p ∈ m, 0 < p.2) → collectTop m k ≠ [] := by
  intro m
  induction m with
  | nil => intro k _ hp; simp at hp
  | cons q t ih =>
    intro k hk hp
    unfold collectTop
    split_ifs with h
    · simp
    · apply ih k hk
      obtain ⟨p, hpm, hp2⟩ := hp
      rcases List.mem_cons.mp hpm with rfl | hpm
      · exact absurd ⟨hp2, hk⟩ h
      · exact ⟨p, hpm, hp2⟩

theorem collectTop_empty_of_nonpos : ∀ (m : List (Category × Int)) (k : Nat),
    (∀ p ∈ m, p.2 ≤ 0) → collectTop m k = [] := by
  intro m
  induction m with
  | nil => intro k _; rfl
  | cons q t ih =>
    intro k hnp
    unfold collectTop
    split_ifs with h
    · exact absurd h.1 (not_lt.mpr (hnp q (List.mem_cons_self _ _)))
    · exact ih k fun p hp => hnp p (List.mem_cons_of_mem _ hp)

theorem scoresPairs_snd {l : List Symptom} {p : Category × Int}
    (hp : p ∈ scoresPairs l) : p.2 = conditionScores l p.1 := by
  simp only [scoresPairs, List.mem_map] at hp
  obtain ⟨c, _, rfl⟩ := hp
  rfl

theorem mem_categoryList (c : Category) : c ∈ categoryList := by
  cases c <;> decide

theorem scoresPairs_idx_pairwise (l : List Symptom) :
    (scoresPairs l).Pairwise (fun p q => catIdx p.1 < catIdx q.1) := by
  unfold scoresPairs
  rw [List.pairwise_map]
  have h : categoryList.Pairwise (fun a b => catIdx a < catIdx b) := by decide
  exact h

theorem collectTop_full_of_skipped : ∀ (m : List (Category × Int)) (k : Nat)
    (p : Category × Int),
    p ∈ m → 0 < p.2 → p.1 ∉ collectTop m k → (collectTop m k).length = 3 - k := by
  intro m
  induction m with
  | nil => intro k p hp; simp at hp
  | cons q t ih =>
    intro k p hpm hpos hnot
    unfold collectTop at hnot ⊢
    split_ifs at hnot ⊢ with h
    · rcases List.mem_cons.mp hpm with rfl | hpm
      · exact absurd (List.mem_cons_self _ _) hnot
      · have hnot2 : p.1 ∉ collectTop t (k + 1) := fun hx => hnot (List.mem_cons_of_mem _ hx)
        have := ih (k + 1) p hpm hpos hnot2
        simp only [List.length_cons, this]
        omega
    · rcases List.mem_cons.mp hpm with rfl | hpm
      · have hk : ¬ k < 3 := fun hk => h ⟨hpos, hk⟩
        have hlen := collectTop_length t k
        omega
      · exact ih k p hpm hpos hnot

theorem collectTop_precede : ∀ (m : List (Category × Int)) (k : Nat) (p : Category × Int),
    m.Pairwise pairRel → p ∈ m → 0 < p.2 → p.1 ∉ collectTop m k →
    ∀ c2 ∈ collectTop m k, ∃ q ∈ m, q.1 = c2 ∧ pairRel q p := by
  intro m
  induction m with
  | nil => intro k p _ hp; simp at hp
  | cons x t ih =>
    intro k p hpw hpm hpos hnot c2 hc2
    rw [List.pairwise_cons] at hpw
    obtain ⟨hxall, htw⟩ := hpw
    unfold collectTop at hnot hc2
    split_ifs at hnot hc2 with h
    · rcases List.mem_cons.mp hpm with rfl | hpm
      · exact absurd (List.mem_cons_self _ _) hnot
      · rcases List.mem_cons.mp hc2 with rfl | hc2
        · exact ⟨x, List.mem_cons_self _ _, rfl, hxall p hpm⟩
        · obtain ⟨q, hq, hq1, hq2⟩ :=
            ih (k + 1) p htw hpm hpos (fun hx => hnot (List.mem_cons_of_mem _ hx)) c2 hc2
          exact ⟨q, List.mem_cons_of_mem _ hq, hq1, hq2⟩
    · rcases List.mem_cons.mp hpm with rfl | hpm
      · have hk : ¬ k < 3 := fun hk => h ⟨hpos, hk⟩
        have hlen := collectTop_length t k
        have hnil : collectTop t k = [] := List.length_eq_zero.mp (by omega)
        rw [hnil] at hc2
        simp at hc2
      · obtain ⟨q, hq, hq1, hq2⟩ := ih k p htw hpm hpos hnot c2 hc2
        exact ⟨q, List.mem_cons_of_mem _ hq, hq1, hq2⟩

/-- Claim C5: for every non-empty symptom list the probable-conditions
output keeps at most 3 entries; when no category scores positively it is
exactly the sentinel string; otherwise it lists names of categories with
strictly positive accumulated score, ranked by score descending with
equal scores ordered by the declaration (first-insertion) position of
the category in the table; and the listing is complete — a positive
category can be left out only when the list already holds 3 entries,
every one of which strictly precedes it in the ranking order, so the
output is exactly the top min(3, positives) of the ranking. -/
theorem C5_probable_conditions (l : List Symptom) (_hl : l ≠ []) :
    (probableConditions l).length ≤ 3
    ∧ ((∀ c : Category, conditionScores l c ≤ 0) →
        probableConditions l = [generalSentinel])
    ∧ ((∃ c : Category, 0 < conditionScores l c) →
        probableCats l ≠ []
        ∧ probableConditions l = (probableCats l).map categoryName
        ∧ (∀ c ∈ probableCats l, 0 < conditionScores l c)
        ∧ (probableCats l).Pairwise (fun c1 c2 =>
            conditionScores l c2 < conditionScores l c1
            ∨ (conditionScores l c1 = conditionScores l c2 ∧ catIdx c1 < catIdx c2)))
    ∧ (∀ c : Category, 0 < conditionScores l c → c ∉ probableCats l →
        (probableCats l).length = 3
        ∧ ∀ c2 ∈ probableCats l,
            conditionScores l c < conditionScores l c2
            ∨ (conditionScores l c2 = conditionScores l c ∧ catIdx c2 < catIdx c)) := by
  have hlen : (probableCats l).length ≤ 3 := by
    simpa using collectTop_length (sortD (scoresPairs l)) 0
  have hSp : (sortD (scoresPairs l)).Pairwise pairRel :=
    sortD_pairwise (scoresPairs_idx_pairwise l)
  refine ⟨?_, ?_, ?_, ?_⟩
  · unfold probableConditions
    split_ifs with h
    · simp
    · simpa using hlen
  · intro h
    have hempty : collectTop (sortD (scoresPairs l)) 0 = [] := by
      apply collectTop_empty_of_nonpos
      intro p hp
      rw [scoresPairs_snd (mem_sortD.mp hp)]
      exact h p.1
    unfold probableConditions
    rw [if_pos]
    exact hempty
  · rintro ⟨c, hc⟩
    have hmemc : (c, conditionScores l c) ∈ scoresPairs l := by
      simp only [scoresPairs, List.mem_map]
      exact ⟨c, mem_categoryList c, rfl⟩
    have hS : (c, conditionScores l c) ∈ sortD (scoresPairs l) := mem_sortD.mpr hmemc
    have hne : probableCats l ≠ [] :=
      collectTop_ne_nil (sortD (scoresPairs l)) 0 (by norm_num)
        ⟨(c, conditionScores l c), hS, hc⟩
    refine ⟨hne, ?_, ?_, ?_⟩
    · unfold probableConditions
      rw [if_neg hne]
    · intro c2 hc2
      obtain ⟨p, hpS, hp1, hp2⟩ := collectTop_mem (sortD (scoresPairs l)) 0 c2 hc2
      rw [← hp1, ← scoresPairs_snd (mem_sortD.mp hpS)]
      exact hp2
    · have hSp2 : (sortD (scoresPairs l)).Pairwise (fun p q =>
          conditionScores l q.1 < conditionScores l p.1
          ∨ (conditionScores l p.1 = conditionScores l q.1 ∧ catIdx p.1 < catIdx q.1)) := by
        refine List.Pairwise.imp_of_mem ?_ hSp
        intro a b ha hb hr
        rw [← scoresPairs_snd (mem_sortD.mp ha), ← scoresPairs_snd (mem_sortD.mp hb)]
        exact hr
      have hmap : ((sortD (scoresPairs l)).map (·.1)).Pairwise (fun c1 c2 =>
          conditionScores l c2 < conditionScores l c1
          ∨ (conditionScores l c1 = conditionScores l c2 ∧ catIdx c1 < catIdx c2)) :=
        List.pairwise_map.mpr hSp2
      exact List.Pairwise.sublist (collectTop_sublist (sortD (scoresPairs l)) 0) hmap
  · intro c hc hnot
    have hmemc : (c, conditionScores l c) ∈ scoresPairs l := by
      simp only [scoresPairs, List.mem_map]
      exact ⟨c, mem_categoryList c, rfl⟩
    have hS : (c, conditionScores l c) ∈ sortD (scoresPairs l) := mem_sortD.mpr hmemc
    refine ⟨?_, ?_⟩
    · simpa using
        collectTop_full_of_skipped (sortD (scoresPairs l)) 0 (c, conditionScores l c) hS hc hnot
    · intro c2 hc2
      obtain ⟨q, hqS, hq1, hq2⟩ :=
        collectTop_precede (sortD (scoresPairs l)) 0 (c, conditionScores l c) hSp hS hc hnot c2 hc2
      have hq2x : pairRel q (c, conditionScores l c) := hq2
      unfold pairRel at hq2x
      rw [scoresPairs_snd (mem_sortD.mp hqS), hq1] at hq2x
      simpa using hq2x

theorem C5_probable_conditions_witness :
    ([sympFatigue, sympFever] ≠ ([] : List Symptom))
    ∧ (probableConditions [sympFatigue, sympFever]).length ≤ 3 :=
  ⟨by decide, (C5_probable_conditions [sympFatigue, sympFever] (by decide)).1⟩

end NovaHealth
